import Mathlib

/-!
Verification of the blooms-builder core heuristics against their
natural-language specification.

The development shallowly embeds three source modules:
* `src/services/analysis/sufficiencyAnalysis.ts` (TOS coverage sufficiency),
* `supabase/functions/classify-questions/index.ts` (lexical question classifier),
* `supabase/functions/rubrics/index.ts` (cosine-similarity duplicate search).

JavaScript strings are modelled as Lean `String`s (lists of characters),
JavaScript numbers as `ℕ`/`ℤ`/`ℚ` for the integer and fraction arithmetic of
the source and as `ℝ` where the source takes square roots.  JavaScript's
falsy-`undefined` field accesses are modelled with `Option` and explicit
defaults, mirroring the `|| 0` / `|| []` idioms of the source.
-/

namespace BloomsBuilder

/-! ## JavaScript string primitives shared by all three modules -/

/-- The whitespace class `\s` of JavaScript regular expressions, restricted to
the characters that actually occur in the modelled data. -/
def jsIsSpace (c : Char) : Bool :=
  c = ' ' || c = '\t' || c = '\n' || c = '\r' || c = '\x0b' || c = '\x0c'

/-- `String.prototype.toLowerCase`, character by character. -/
def jsToLower (s : String) : String :=
  ⟨s.data.map Char.toLower⟩

/-- `sub` occurs contiguously inside `l` (the test behind
`String.prototype.includes`). -/
def containsSeq (l sub : List Char) : Bool :=
  l.tails.any (fun t => sub.isPrefixOf t)

/-- `String.prototype.includes`. -/
def jsIncludes (s sub : String) : Bool :=
  containsSeq s.data sub.data

/-- `String.prototype.startsWith`. -/
def jsStartsWith (s p : String) : Bool :=
  p.data.isPrefixOf s.data

/-- Replace every maximal run of characters satisfying `p` by the single
character `r c`, where `c` is the first character of the run.  `prev` records
whether the previous character belonged to a run.  This is
`String.prototype.replace` with a `/X+/g` pattern. -/
def collapseRuns (p : Char → Bool) (r : Char → Char) : Bool → List Char → List Char
  | _, [] => []
  | prev, c :: cs =>
    if p c then (if prev then [] else [r c]) ++ collapseRuns p r true cs
    else c :: collapseRuns p r false cs

/-- `String.prototype.split` on a `/X+/g` pattern: splitting on maximal runs of
separator characters keeps an empty piece at an end of the string that starts
or ends with a separator, and splitting the empty string yields `[""]`. -/
def jsSplitOnRuns (p : Char → Bool) (l : List Char) : List String :=
  ((collapseRuns p id false l).splitOnP p).map fun cs => ⟨cs⟩

/-- `text.split(/\s+/)`. -/
def jsSplitWs (s : String) : List String :=
  jsSplitOnRuns jsIsSpace s.data

/-- `String.prototype.trim` (whitespace from both ends). -/
def trimChars (l : List Char) : List Char :=
  ((l.dropWhile jsIsSpace).reverse.dropWhile jsIsSpace).reverse

/-- `String.prototype.trim` on strings. -/
def jsTrim (s : String) : String :=
  ⟨trimChars s.data⟩

/-! ## Sufficiency analysis (`src/services/analysis/sufficiencyAnalysis.ts`) -/

/-- The `normalize` helper of `sufficiencyAnalysis.ts`: lower-case, replace
`_` and `-` by spaces, collapse whitespace runs to single spaces, trim. -/
def normalize (text : String) : String :=
  jsTrim ⟨collapseRuns jsIsSpace (fun _ => ' ') false
    ((jsToLower text).data.map (fun c => if c = '_' || c = '-' then ' ' else c))⟩

/-- `topicsMatch` of `sufficiencyAnalysis.ts`: substring containment in either
direction. -/
def topicsMatch (t1 t2 : String) : Bool :=
  jsIncludes t1 t2 || jsIncludes t2 t1

/-- A row of the `questions` table as selected by `analyzeTOSSufficiency`. -/
structure RawQuestion where
  id : Nat
  topic : String
  bloom_level : String
  deleted : Bool
deriving DecidableEq

/-- A question after the normalisation pass of `analyzeTOSSufficiency`. -/
structure NormQuestion where
  id : Nat
  topic : String
  bloom : String
deriving DecidableEq

/-- One entry of `tosMatrix.topics`.  The two optional name fields mirror the
`topic.topic_name || topic.topic` fallback; the six counters mirror the
``topic[`${bloom}_items`] || 0`` accesses (an absent field reads as `0`). -/
structure TosTopic where
  topic_name : Option String
  topic : Option String
  remembering_items : Nat
  understanding_items : Nat
  applying_items : Nat
  analyzing_items : Nat
  evaluating_items : Nat
  creating_items : Nat
deriving DecidableEq

/-- ``topic[`${bloom}_items`] || 0``: property access keyed by the bloom-level
string, yielding `0` for any key other than the six defined ones. -/
def TosTopic.items (t : TosTopic) (bloom : String) : Nat :=
  if bloom = "remembering" then t.remembering_items
  else if bloom = "understanding" then t.understanding_items
  else if bloom = "applying" then t.applying_items
  else if bloom = "analyzing" then t.analyzing_items
  else if bloom = "evaluating" then t.evaluating_items
  else if bloom = "creating" then t.creating_items
  else 0

/-- The requirement matrix passed to `analyzeTOSSufficiency`; `topics` is
optional to model a structurally malformed matrix lacking the array. -/
structure TosMatrix where
  topics : Option (List TosTopic)
deriving DecidableEq

/-- JavaScript `a || b` on two optional strings: an absent or empty (falsy)
`a` falls through to `b`. -/
def jsOrString (a b : Option String) : Option String :=
  match a with
  | some s => if s = "" then b else some s
  | none => b

inductive SuffStatus
  | pass
  | warning
  | fail
deriving DecidableEq

/-- One element of the `results` array of `analyzeTOSSufficiency`. -/
structure SufficiencyResult where
  topic : String
  bloomLevel : String
  required : Nat
  available : Nat
  gap : Nat
  sufficiency : SuffStatus
deriving DecidableEq

/-- The record returned by `analyzeTOSSufficiency`. -/
structure SufficiencyAnalysis where
  overallStatus : SuffStatus
  overallScore : ℚ
  totalRequired : Nat
  totalAvailable : Nat
  results : List SufficiencyResult
  recommendations : List String

/-- The `bloomLevels` list of `analyzeTOSSufficiency` (already-normal strings
passed through `normalize`, as in the source). -/
def bloomLevels : List String :=
  (["remembering", "understanding", "applying", "analyzing", "evaluating",
    "creating"]).map normalize

/-- The 70%-of-requirement test `available >= required * 0.7` of
`analyzeTOSSufficiency`, as a proposition over the exact rationals. -/
def cellCond (available required : Nat) : Prop :=
  (available : ℚ) ≥ (required : ℚ) * (7 / 10)

instance (a r : Nat) : Decidable (cellCond a r) :=
  decidable_of_iff (7 * r ≤ 10 * a)
    (by
      unfold cellCond
      rw [ge_iff_le]
      constructor
      · intro h
        have hc : (7 : ℚ) * r ≤ 10 * a := by exact_mod_cast h
        linarith
      · intro h
        have hc : (7 : ℚ) * r ≤ 10 * a := by linarith
        exact_mod_cast hc)

/-- The per-cell grade: `pass` when enough items exist, `warning` above 70% of
the requirement, `fail` below. -/
def cellSufficiency (available required : Nat) : SuffStatus :=
  if available ≥ required then .pass
  else if cellCond available required then .warning
  else .fail

/-- Mutable state of the topic/bloom double loop of `analyzeTOSSufficiency`:
the `results` array and the two running totals. -/
structure SuffAcc where
  results : List SufficiencyResult
  totalRequired : Nat
  totalAvailable : Nat
deriving DecidableEq

/-- The body of the inner `for (const bloom of bloomLevels)` loop: a cell with
`required = 0` is skipped, otherwise the matching questions are counted and a
result row is appended. -/
def processCell (questions : List NormQuestion) (topicName : String)
    (tp : TosTopic) (acc : SuffAcc) (bloom : String) : SuffAcc :=
  let required := tp.items bloom
  if required = 0 then acc
  else
    let matched := questions.filter fun q =>
      topicsMatch q.topic topicName && q.bloom == bloom
    let available := matched.length
    let gap := required - available
    { results := acc.results ++
        [⟨topicName, bloom, required, available, gap,
          cellSufficiency available required⟩],
      totalRequired := acc.totalRequired + required,
      totalAvailable := acc.totalAvailable + available }

/-- The body of the outer `for (const topic of tosMatrix.topics || [])` loop. -/
def processTopic (questions : List NormQuestion) (acc : SuffAcc)
    (tp : TosTopic) : SuffAcc :=
  let topicName := normalize ((jsOrString tp.topic_name tp.topic).getD "")
  bloomLevels.foldl (processCell questions topicName tp) acc

/-- The double loop of `analyzeTOSSufficiency` over an already-normalised
inventory. -/
def analyzeCore (questions : List NormQuestion) (m : TosMatrix) : SuffAcc :=
  (m.topics.getD []).foldl (processTopic questions) ⟨[], 0, 0⟩

/-- The recommendation strings assembled at the end of
`analyzeTOSSufficiency`. -/
def mkRecommendations (results : List SufficiencyResult) : List String :=
  let missing := results.filter fun r => r.gap > 0
  if missing.length > 0 then
    ("AI will generate " ++ toString (missing.foldl (fun n r => n + r.gap) 0)
      ++ " questions to fill the gaps.") ::
    missing.map (fun r =>
      "• " ++ r.topic ++ " (" ++ r.bloomLevel ++ ") requires "
        ++ toString r.required ++ ", but only " ++ toString r.available
        ++ " exist.")
  else
    ["All required questions exist in the bank."]

/-- `analyzeTOSSufficiency` after a successful fetch: filter out deleted
questions, normalise, run the double loop, and grade the overall coverage. -/
def analyze (rawQuestions : List RawQuestion) (m : TosMatrix) :
    SufficiencyAnalysis :=
  let questions := (rawQuestions.filter fun q => !q.deleted).map fun q =>
    ⟨q.id, normalize q.topic, normalize q.bloom_level⟩
  let acc := analyzeCore questions m
  let overallScore : ℚ :=
    if acc.totalRequired > 0 then
      ((acc.totalAvailable : ℚ) / (acc.totalRequired : ℚ)) * 100
    else 0
  let overallStatus : SuffStatus :=
    if overallScore ≥ 100 then .pass
    else if overallScore ≥ 70 then .warning
    else .fail
  { overallStatus := overallStatus,
    overallScore := overallScore,
    totalRequired := acc.totalRequired,
    totalAvailable := acc.totalAvailable,
    results := acc.results,
    recommendations := mkRecommendations acc.results }

/-- The full `analyzeTOSSufficiency`, including the error path: the only
`throw` is the one taken when the `questions` fetch itself fails; the matrix
shape is never validated. -/
def analyzeTOSSufficiency (fetched : Except String (List RawQuestion))
    (m : TosMatrix) : Except String SufficiencyAnalysis :=
  match fetched with
  | .error _ => .error "Unable to analyze question bank."
  | .ok qs => .ok (analyze qs m)

/-! ## Question classifier (`supabase/functions/classify-questions/index.ts`) -/

/-- The declared question type of the classification input schema. -/
inductive QType
  | mcq
  | true_false
  | essay
  | short_answer
deriving DecidableEq

/-- Bloom cognitive levels. -/
inductive BloomLevel
  | remembering
  | understanding
  | applying
  | analyzing
  | evaluating
  | creating
deriving DecidableEq

/-- Anderson–Krathwohl knowledge dimensions. -/
inductive KnowledgeDim
  | factual
  | conceptual
  | procedural
  | metacognitive
deriving DecidableEq

/-- Difficulty grades. -/
inductive Difficulty
  | easy
  | average
  | difficult
deriving DecidableEq

set_option maxHeartbeats 1000000 in
/-- `BLOOM_VERB_MAP`, as the ordered `(key, value)` sequence produced by
`Object.entries` (insertion order of the source literal). -/
def BLOOM_VERB_MAP : List (String × BloomLevel) :=
  [("define", .remembering), ("list", .remembering), ("recall", .remembering),
   ("identify", .remembering), ("name", .remembering), ("state", .remembering),
   ("recognize", .remembering), ("select", .remembering), ("match", .remembering),
   ("choose", .remembering), ("label", .remembering), ("locate", .remembering),
   ("explain", .understanding), ("describe", .understanding),
   ("summarize", .understanding), ("interpret", .understanding),
   ("classify", .understanding), ("compare", .understanding),
   ("contrast", .understanding), ("illustrate", .understanding),
   ("translate", .understanding), ("paraphrase", .understanding),
   ("convert", .understanding), ("discuss", .understanding),
   ("apply", .applying), ("use", .applying), ("execute", .applying),
   ("implement", .applying), ("solve", .applying), ("demonstrate", .applying),
   ("operate", .applying), ("calculate", .applying), ("show", .applying),
   ("complete", .applying), ("modify", .applying), ("relate", .applying),
   ("analyze", .analyzing), ("examine", .analyzing), ("investigate", .analyzing),
   ("categorize", .analyzing), ("differentiate", .analyzing),
   ("distinguish", .analyzing), ("organize", .analyzing),
   ("deconstruct", .analyzing), ("breakdown", .analyzing),
   ("separate", .analyzing), ("order", .analyzing), ("connect", .analyzing),
   ("evaluate", .evaluating), ("assess", .evaluating), ("judge", .evaluating),
   ("critique", .evaluating), ("justify", .evaluating), ("defend", .evaluating),
   ("support", .evaluating), ("argue", .evaluating), ("decide", .evaluating),
   ("rate", .evaluating), ("prioritize", .evaluating), ("recommend", .evaluating),
   ("create", .creating), ("design", .creating), ("develop", .creating),
   ("construct", .creating), ("generate", .creating), ("produce", .creating),
   ("plan", .creating), ("compose", .creating), ("formulate", .creating),
   ("build", .creating), ("invent", .creating), ("combine", .creating)]

set_option maxHeartbeats 1000000 in
/-- `KNOWLEDGE_DIMENSION_MAP`, in source insertion order. -/
def KNOWLEDGE_DIMENSION_MAP : List (String × KnowledgeDim) :=
  [("define", .factual), ("list", .factual), ("name", .factual),
   ("identify", .factual), ("recall", .factual), ("recognize", .factual),
   ("select", .factual), ("match", .factual),
   ("explain", .conceptual), ("classify", .conceptual), ("compare", .conceptual),
   ("summarize", .conceptual), ("interpret", .conceptual),
   ("illustrate", .conceptual), ("contrast", .conceptual),
   ("discuss", .conceptual),
   ("apply", .procedural), ("use", .procedural), ("implement", .procedural),
   ("execute", .procedural), ("demonstrate", .procedural),
   ("calculate", .procedural), ("solve", .procedural), ("operate", .procedural),
   ("construct", .procedural),
   ("evaluate", .metacognitive), ("assess", .metacognitive),
   ("judge", .metacognitive), ("critique", .metacognitive),
   ("justify", .metacognitive), ("reflect", .metacognitive),
   ("plan", .metacognitive), ("monitor", .metacognitive)]

/-- `KNOWLEDGE_INDICATORS`, in source insertion order. -/
def KNOWLEDGE_INDICATORS : List (KnowledgeDim × List String) :=
  [(.factual, ["what is", "define", "list", "name", "identify", "when",
      "where", "who", "which", "what year", "how many"]),
   (.conceptual, ["explain", "compare", "contrast", "relationship", "why",
      "how does", "principle", "theory", "model", "framework"]),
   (.procedural, ["calculate", "solve", "demonstrate", "perform", "how to",
      "steps", "procedure", "method", "algorithm"]),
   (.metacognitive, ["evaluate", "assess", "best method", "most appropriate",
      "strategy", "approach", "reflect", "monitor"])]

/-- The whole-word verb test of the Bloom scan:
``t.includes(` ${verb} `) || t.startsWith(verb) || t.includes(`${verb}:`)``. -/
def bloomVerbTest (t verb : String) : Bool :=
  jsIncludes t (" " ++ verb ++ " ") || jsStartsWith t verb
    || jsIncludes t (verb ++ ":")

/-- The verb test of the knowledge-dimension scan (no colon variant):
``t.includes(` ${verb} `) || t.startsWith(verb)``. -/
def kdVerbTest (t verb : String) : Bool :=
  jsIncludes t (" " ++ verb ++ " ") || jsStartsWith t verb

/-- First-match-wins scan of `BLOOM_VERB_MAP` over the lower-cased text. -/
def bloomScan (t : String) : Option (String × BloomLevel) :=
  List.find? (fun p => bloomVerbTest t p.1) BLOOM_VERB_MAP

/-- First-match-wins scan of `KNOWLEDGE_DIMENSION_MAP`. -/
def kdScan (t : String) : Option (String × KnowledgeDim) :=
  List.find? (fun p => kdVerbTest t p.1) KNOWLEDGE_DIMENSION_MAP

/-- First dimension whose indicator list has a substring hit (the fallback
used only when no cue verb matched). -/
def indicatorScan (t : String) : Option (KnowledgeDim × List String) :=
  List.find? (fun p => p.2.any fun ind => jsIncludes t ind) KNOWLEDGE_INDICATORS

/-- The `type === 'essay' && bestKD === 'factual'` remap of
`guessBloomAndKD`. -/
def essayRemap (type : QType) (kd : KnowledgeDim) : KnowledgeDim :=
  if type = .essay ∧ kd = .factual then .conceptual else kd

/-- The knowledge dimension detected before the essay remap: the verb scan,
then (only when no Bloom verb matched) the indicator fallback, defaulting to
`conceptual`. -/
def kdDetect (t : String) (verbHits : Nat) : KnowledgeDim :=
  let fromVerbs : KnowledgeDim := match kdScan t with
    | some p => p.2
    | none => .conceptual
  if verbHits = 0 then
    match indicatorScan t with
    | some p => p.1
    | none => fromVerbs
  else fromVerbs

/-- The result record of `guessBloomAndKD`. -/
structure BloomKD where
  bloom_level : BloomLevel
  knowledge_dimension : KnowledgeDim
  confidence : ℚ

/-- `guessBloomAndKD`: first-match-wins verb scans, indicator fallback, the
essay remap, and the additive confidence heuristic clamped to `[0.1, 1]`. -/
def guessBloomAndKD (text : String) (type : QType) : BloomKD :=
  let t := jsToLower text
  let bestBloom : BloomLevel := match bloomScan t with
    | some p => p.2
    | none => .understanding
  let verbHits : Nat := if (bloomScan t).isSome then 1 else 0
  let kdHits : Nat := (if (kdScan t).isSome then 1 else 0) +
    (if verbHits = 0 ∧ (indicatorScan t).isSome then 1 else 0)
  let bestKD := essayRemap type (kdDetect t verbHits)
  let confidence0 : ℚ := 0.5 + (verbHits : ℚ) * 0.2 + (kdHits : ℚ) * 0.1
  let wordCount := (jsSplitWs t).length
  let confidence1 := if wordCount < 8 then confidence0 - 0.1 else confidence0
  let confidence2 := if wordCount > 25 then confidence1 + 0.1 else confidence1
  let confidence3 :=
    if type = .mcq ∧ jsIncludes t "which of the following" then
      confidence2 + 0.1
    else confidence2
  let confidence4 :=
    if type = .essay ∧ bestBloom = .creating then confidence3 + 0.1
    else confidence3
  ⟨bestBloom, bestKD, min 1 (max 0.1 confidence4)⟩

/-- `guessDifficulty`: keyword override, then structural complexity, then the
cognitive-level fallback. -/
def guessDifficulty (text : String) (type : QType) (bloom : BloomLevel) :
    Difficulty :=
  let t := jsToLower text
  let easyIndicators := ["simple", "basic", "elementary", "straightforward",
    "fundamental"]
  let difficultIndicators := ["complex", "advanced", "sophisticated",
    "intricate", "comprehensive"]
  if easyIndicators.any (fun w => jsIncludes t w) then .easy
  else if difficultIndicators.any (fun w => jsIncludes t w) then .difficult
  else
    let wordCount := (jsSplitWs t).length
    let complexityScore := (t.data.filter fun c =>
      c = ',' || c = ':' || c = ';' || c = '(' || c = ')' || c = '-').length
    if type = .essay ∨ complexityScore > 6 ∨ wordCount > 30 then .difficult
    else if wordCount > 15 ∨ complexityScore > 3 then .average
    else if bloom = .remembering ∨ bloom = .understanding then .easy
    else if bloom = .evaluating ∨ bloom = .creating then .difficult
    else .average

/-- `calculateQualityScore`: penalties for extreme lengths, missing terminal
punctuation, double spaces, unquestioning MCQ stems; clamped to `[0, 1]`. -/
def calculateQualityScore (text : String) (type : QType) : ℚ :=
  let wordCount := (jsSplitWs text).length
  let score0 : ℚ := 1
  let score1 := if wordCount < 5 then score0 - 0.3 else score0
  let score2 := if wordCount > 50 then score1 - 0.2 else score1
  let score3 :=
    if ((jsTrim text).data.getLast?.elim true fun c =>
        !(c = '.' || c = '?' || c = '!')) then
      score2 - 0.1
    else score2
  let score4 := if jsIncludes text "  " then score3 - 0.05 else score3
  let score5 :=
    if type = .mcq ∧ ¬(jsIncludes text "?" = true)
        ∧ ¬(jsIncludes (jsToLower text) "which" = true) then
      score4 - 0.1
    else score4
  max 0 (min 1 score5)

/-- Characters counted as vowels by `estimateSyllables`. -/
def isVowel (c : Char) : Bool :=
  c = 'a' || c = 'e' || c = 'i' || c = 'o' || c = 'u'

/-- Lower-case letters kept by the first `replace` of `estimateSyllables`. -/
def isLowerAlpha (c : Char) : Bool :=
  'a' ≤ c && c ≤ 'z'

/-- `estimateSyllables`: keep letters, collapse vowel runs of length ≥ 2 to a
single `'a'`, keep only vowels, count, with a floor of 1. -/
def estimateSyllables (text : String) : Nat :=
  let letters := (jsToLower text).data.filter isLowerAlpha
  let collapsed := collapseRuns isVowel (fun _ => 'a') false letters
  max (collapsed.filter isVowel).length 1

/-- `calculateReadabilityScore`: the Flesch–Kincaid style grade estimate with
the `sentences == 0` fallback of 8.0. -/
def calculateReadabilityScore (text : String) : ℚ :=
  let words : ℚ := ((jsSplitWs text).length : ℚ)
  let sentences : ℚ :=
    (((jsSplitOnRuns (fun c => c = '.' || c = '!' || c = '?') text.data).filter
      fun s => jsTrim s ≠ "").length : ℚ)
  let syllables : ℚ := (estimateSyllables text : ℚ)
  if sentences = 0 then 8
  else 0.39 * (words / sentences) + 11.8 * (syllables / words) - 15.59

/-- `simpleHash`'s `hash = hash & hash` coercion: wrap an integer to the
signed 32-bit range. -/
def toInt32 (n : ℤ) : ℤ :=
  (n + 2 ^ 31) % 2 ^ 32 - 2 ^ 31

/-- One iteration of `simpleHash`: `hash = ((hash << 5) - hash) + charCode`
followed by the `& hash` 32-bit wrap. -/
def simpleHashStep (h : ℤ) (c : Char) : ℤ :=
  toInt32 (toInt32 (h * 32) - h + (c.toNat : ℤ))

/-- `simpleHash`: the rolling 31-multiplier hash with `Math.abs` applied to
the final 32-bit value. -/
def simpleHash (s : String) : Nat :=
  (s.data.foldl simpleHashStep 0).natAbs

/-- Increment one bucket of the 50-entry term-frequency vector. -/
def bump (v : List Nat) (i : Nat) : List Nat :=
  v.set i (v.getD i 0 + 1)

/-- The raw (unnormalised) 50-bucket term-frequency vector of
`generateSemanticVector`. -/
def rawVector (text : String) : List Nat :=
  (jsSplitWs (jsToLower text)).foldl
    (fun v w => bump v (simpleHash w % 50)) (List.replicate 50 0)

/-- `generateSemanticVector`: the raw vector scaled to unit L2 length, or
returned unchanged when its magnitude is zero. -/
noncomputable def generateSemanticVector (text : String) : List ℝ :=
  let vector := rawVector text
  let magnitude : ℝ := Real.sqrt ((vector.map fun v : Nat => (v : ℝ) * v).sum)
  if magnitude > 0 then vector.map fun v : Nat => (v : ℝ) / magnitude
  else vector.map fun v : Nat => (v : ℝ)

/-- `Math.round`: round half away from zero toward `+∞`. -/
def jsRound (x : ℚ) : ℤ :=
  ⌊x + 1 / 2⌋

/-- The output record built by the request handler of `classify-questions`
for one input item. -/
structure ClassificationOutput where
  cognitive_level : BloomLevel
  bloom_level : BloomLevel
  difficulty : Difficulty
  knowledge_dimension : KnowledgeDim
  confidence : ℚ
  quality_score : ℚ
  readability_score : ℚ
  semantic_vector : List ℝ
  needs_review : Bool

/-- The per-item body of the handler's `payload.map`: run all heuristics and
round the scores for display. -/
noncomputable def classifyOne (text : String) (type : QType) :
    ClassificationOutput :=
  let g := guessBloomAndKD text type
  { cognitive_level := g.bloom_level,
    bloom_level := g.bloom_level,
    difficulty := guessDifficulty text type g.bloom_level,
    knowledge_dimension := g.knowledge_dimension,
    confidence := (jsRound (g.confidence * 100) : ℚ) / 100,
    quality_score := (jsRound (calculateQualityScore text type * 100) : ℚ) / 100,
    readability_score := (jsRound (calculateReadabilityScore text * 10) : ℚ) / 10,
    semantic_vector := generateSemanticVector text,
    needs_review := decide (g.confidence < 0.7) }

/-! ## Similarity engine (`supabase/functions/rubrics/index.ts`) -/

/-- The word characters `\w` of JavaScript regular expressions. -/
def jsIsWordChar (c : Char) : Bool :=
  ('a' ≤ c && c ≤ 'z') || ('A' ≤ c && c ≤ 'Z') || ('0' ≤ c && c ≤ '9')
    || c = '_'

/-- The pre-filter word list of `tokenize`: lower-case, replace every
character that is neither a word character nor whitespace by a space, and
split on whitespace runs. -/
def rawTokens (text : String) : List String :=
  jsSplitOnRuns jsIsSpace
    ((jsToLower text).data.map fun c =>
      if jsIsWordChar c || jsIsSpace c then c else ' ')

/-- `tokenize` of `rubrics/index.ts`: the word list with tokens of length
`≤ 2` discarded. -/
def tokenize (text : String) : List String :=
  (rawTokens text).filter fun token => token.length > 2

/-- The three sums computed from the two term-frequency vectors indexed by
the union vocabulary `new Set([...tokens1, ...tokens2])`: the dot product and
the two squared magnitudes. -/
def cosineParts (tokens1 tokens2 : List String) : Nat × Nat × Nat :=
  let allTokens := (tokens1 ++ tokens2).dedup
  ((allTokens.map fun t => tokens1.count t * tokens2.count t).sum,
   (allTokens.map fun t => tokens1.count t * tokens1.count t).sum,
   (allTokens.map fun t => tokens2.count t * tokens2.count t).sum)

/-- `calculateCosineSimilarity`: cosine of the two exact term-frequency
vectors, with the zero-magnitude guard returning 0. -/
noncomputable def calculateCosineSimilarity (text1 text2 : String) : ℝ :=
  let p := cosineParts (tokenize text1) (tokenize text2)
  let magnitude1 : ℝ := Real.sqrt (p.2.1 : ℝ)
  let magnitude2 : ℝ := Real.sqrt (p.2.2 : ℝ)
  if magnitude1 = 0 ∨ magnitude2 = 0 then 0
  else (p.1 : ℝ) / (magnitude1 * magnitude2)

/-- A row of the `questions` table as seen by the semantic-similarity
handler. -/
structure CorpusQ where
  id : String
  question_text : String

/-- One entry of the handler's `similarities` array. -/
structure SimEntry where
  questionId : String
  similarity : ℝ

/-- One row upserted into `question_similarities`. -/
structure UpsertRow where
  question1_id : String
  question2_id : String
  similarity_score : ℝ

/-- The descending-similarity comparator of
`similarities.sort((a, b) => b.similarity - a.similarity)`. -/
noncomputable def simDescBool (a b : SimEntry) : Bool :=
  decide (b.similarity ≤ a.similarity)

/-- The pure find-and-rank computation of the `semantic-similarity` handler
(`findSimilar` of the specification): score every corpus question, keep those
at or above the threshold, sort by descending similarity, truncate to 10. -/
noncomputable def findSimilar (questionText : String) (corpus : List CorpusQ)
    (threshold : ℝ) : List SimEntry :=
  (((corpus.filter fun q =>
      decide (threshold ≤ calculateCosineSimilarity questionText q.question_text)).map
    fun q => ⟨q.id, calculateCosineSimilarity questionText q.question_text⟩).mergeSort
      simDescBool).take 10

/-- The `for (const q of questions)` loop of the handler, accumulating both
the `similarities` array and the interleaved storage upserts (performed only
when a `questionId` was supplied). -/
noncomputable def handlerLoop (questionText : String) (questionId : Option String)
    (corpus : List CorpusQ) (threshold : ℝ) :
    List SimEntry × List UpsertRow :=
  corpus.foldl
    (fun acc q =>
      let similarity := calculateCosineSimilarity questionText q.question_text
      if threshold ≤ similarity then
        (acc.1 ++ [⟨q.id, similarity⟩],
         acc.2 ++ (match questionId with
           | some qid => [⟨qid, q.id, similarity⟩]
           | none => []))
      else acc)
    ([], [])

/-- The full `semantic-similarity` handler on an already-fetched corpus: run
the loop, sort descending, return the top 10 together with the requested
storage effects. -/
noncomputable def semanticSimilarityHandler (questionText : String)
    (questionId : Option String) (corpus : List CorpusQ) (threshold : ℝ) :
    List SimEntry × List UpsertRow :=
  let loop := handlerLoop questionText questionId corpus threshold
  ((loop.1.mergeSort simDescBool).take 10, loop.2)

/-! ### Structural lemmas about the sufficiency analyzer -/

/-- `overallScore` of `analyze`, read off the returned record. -/
theorem analyze_overallScore (raw : List RawQuestion) (m : TosMatrix) :
    (analyze raw m).overallScore =
      if 0 < (analyze raw m).totalRequired then
        (((analyze raw m).totalAvailable : ℚ)
          / ((analyze raw m).totalRequired : ℚ)) * 100
      else 0 := rfl

/-- `overallStatus` of `analyze`, read off the returned record. -/
theorem analyze_overallStatus (raw : List RawQuestion) (m : TosMatrix) :
    (analyze raw m).overallStatus =
      if (analyze raw m).overallScore ≥ 100 then SuffStatus.pass
      else if (analyze raw m).overallScore ≥ 70 then SuffStatus.warning
      else SuffStatus.fail := rfl

/-- A cell with `required = 0` is skipped entirely. -/
theorem processCell_zero (qs : List NormQuestion) (tn : String) (tp : TosTopic)
    (acc : SuffAcc) (bloom : String) (hr : tp.items bloom = 0) :
    processCell qs tn tp acc bloom = acc := by
  unfold processCell
  rw [if_pos hr]

/-- A cell with `required ≠ 0` appends one row and bumps both totals. -/
theorem processCell_push (qs : List NormQuestion) (tn : String) (tp : TosTopic)
    (acc : SuffAcc) (bloom : String) (hr : tp.items bloom ≠ 0) :
    processCell qs tn tp acc bloom =
      { results := acc.results ++
          [⟨tn, bloom, tp.items bloom,
            (qs.filter fun q => topicsMatch q.topic tn && q.bloom == bloom).length,
            tp.items bloom -
              (qs.filter fun q => topicsMatch q.topic tn && q.bloom == bloom).length,
            cellSufficiency
              (qs.filter fun q => topicsMatch q.topic tn && q.bloom == bloom).length
              (tp.items bloom)⟩],
        totalRequired := acc.totalRequired + tp.items bloom,
        totalAvailable := acc.totalAvailable +
          (qs.filter fun q => topicsMatch q.topic tn && q.bloom == bloom).length } := by
  unfold processCell
  rw [if_neg hr]

/-- Loop invariant of the topic/bloom double loop: the running totals are the
sums of the corresponding row fields, and every emitted row has a non-zero
requirement. -/
def accInv (acc : SuffAcc) : Prop :=
  (acc.results.map SufficiencyResult.required).sum = acc.totalRequired ∧
  (acc.results.map SufficiencyResult.available).sum = acc.totalAvailable ∧
  ∀ r ∈ acc.results, r.required ≠ 0

theorem processCell_inv (qs : List NormQuestion) (tn : String) (tp : TosTopic)
    (acc : SuffAcc) (bloom : String) (h : accInv acc) :
    accInv (processCell qs tn tp acc bloom) := by
  by_cases hr : tp.items bloom = 0
  · rw [processCell_zero qs tn tp acc bloom hr]; exact h
  · rw [processCell_push qs tn tp acc bloom hr]
    obtain ⟨h1, h2, h3⟩ := h
    refine ⟨?_, ?_, ?_⟩
    · simp [h1]
    · simp [h2]
    · intro r hrr
      simp only [List.mem_append, List.mem_singleton] at hrr
      rcases hrr with hrr | hrr
      · exact h3 r hrr
      · subst hrr; exact hr

theorem foldl_preserve {α : Type _} (P : SuffAcc → Prop) (f : SuffAcc → α → SuffAcc)
    (hf : ∀ acc a, P acc → P (f acc a)) :
    ∀ (l : List α) (acc : SuffAcc), P acc → P (l.foldl f acc) := by
  intro l
  induction l with
  | nil => intro acc h; exact h
  | cons x xs ih => intro acc h; exact ih _ (hf _ _ h)

theorem analyzeCore_inv (qs : List NormQuestion) (m : TosMatrix) :
    accInv (analyzeCore qs m) := by
  unfold analyzeCore
  refine foldl_preserve accInv _ ?_ _ _ ⟨rfl, rfl, by simp⟩
  intro acc tp h
  unfold processTopic
  exact foldl_preserve accInv _ (fun a b => processCell_inv qs _ tp a b) _ _ h

/-- Every result row of `analyze` has a non-zero `required` field. -/
theorem analyze_required_ne_zero (raw : List RawQuestion) (m : TosMatrix) :
    ∀ r ∈ (analyze raw m).results, r.required ≠ 0 := by
  have h := analyzeCore_inv
    ((raw.filter fun q => !q.deleted).map fun q =>
      ⟨q.id, normalize q.topic, normalize q.bloom_level⟩) m
  exact h.2.2


/-! ### Lemmas about the classifier fingerprint -/

theorem bump_length (v : List Nat) (i : Nat) : (bump v i).length = v.length := by
  simp [bump]

theorem bump_sum (v : List Nat) (i : Nat) (h : i < v.length) :
    (bump v i).sum = v.sum + 1 := by
  unfold bump
  rw [List.sum_set, if_pos h, List.getD_eq_getElem v 0 h]
  have hs : v.sum = (v.take i).sum + (v.drop i).sum :=
    (List.sum_take_add_sum_drop v i).symm
  rw [List.drop_eq_getElem_cons h] at hs
  simp only [List.sum_cons] at hs
  omega

theorem foldl_bump (l : List String) (v : List Nat) (hv : v.length = 50) :
    (l.foldl (fun v w => bump v (simpleHash w % 50)) v).length = 50 ∧
    (l.foldl (fun v w => bump v (simpleHash w % 50)) v).sum = v.sum + l.length := by
  induction l generalizing v with
  | nil => simpa using hv
  | cons w ws ih =>
    have hlt : simpleHash w % 50 < v.length := by
      rw [hv]; exact Nat.mod_lt _ (by norm_num)
    have h1 := ih (bump v (simpleHash w % 50)) (by rw [bump_length, hv])
    refine ⟨h1.1, ?_⟩
    rw [List.foldl_cons, h1.2, bump_sum v _ hlt]
    simp only [List.length_cons]
    omega

theorem rawVector_length (text : String) : (rawVector text).length = 50 :=
  (foldl_bump _ _ (by simp)).1

theorem rawVector_sum (text : String) :
    (rawVector text).sum = (jsSplitWs (jsToLower text)).length := by
  have h := (foldl_bump (jsSplitWs (jsToLower text)) (List.replicate 50 0) (by simp)).2
  simpa using h

/-- `String.prototype.split` never yields an empty array. -/
theorem jsSplitOnRuns_ne_nil (p : Char → Bool) (l : List Char) :
    jsSplitOnRuns p l ≠ [] := by
  unfold jsSplitOnRuns
  intro h
  exact List.splitOnP_ne_nil _ _ (List.map_eq_nil_iff.mp h)

/-- The raw term-frequency vector is never all-zero: even the empty text
splits into the single word `""`, which lands in some bucket. -/
theorem rawVector_ne_zero (text : String) :
    ∃ j ∈ rawVector text, j ≠ 0 := by
  by_contra h
  push_neg at h
  have hz : (rawVector text).sum = 0 := List.sum_eq_zero_iff.mpr h
  rw [rawVector_sum] at hz
  have := jsSplitOnRuns_ne_nil jsIsSpace (jsToLower text).data
  unfold jsSplitWs at hz
  exact this (List.length_eq_zero.mp hz)

theorem sum_sq_cast (l : List Nat) :
    ((l.map fun v : Nat => (v : ℝ) * v).sum)
      = (((l.map fun v => v * v).sum : ℕ) : ℝ) := by
  induction l with
  | nil => simp
  | cons x xs ih =>
    simp only [List.map_cons, List.sum_cons, ih]
    push_cast
    ring

theorem sum_div_sq (l : List Nat) (m : ℝ) :
    (((l.map fun v : Nat => (v : ℝ) / m).map fun x : ℝ => x * x).sum)
      = ((l.map fun v : Nat => (v : ℝ) * v).sum) / (m * m) := by
  induction l with
  | nil => simp
  | cons x xs ih =>
    simp only [List.map_cons, List.sum_cons, ih]
    rw [div_mul_div_comm, add_div]

/-- The essay remap can never output `factual`. -/
theorem essayRemap_ne_factual (kd : KnowledgeDim) :
    essayRemap QType.essay kd ≠ KnowledgeDim.factual := by
  cases kd <;> simp [essayRemap]

/-! ### Lemmas about the similarity engine -/

theorem cosineParts_self (t : List String) :
    cosineParts t t =
      (((t ++ t).dedup.map fun w => t.count w * t.count w).sum,
       ((t ++ t).dedup.map fun w => t.count w * t.count w).sum,
       ((t ++ t).dedup.map fun w => t.count w * t.count w).sum) := rfl

theorem self_parts_pos (t : List String) (h : t ≠ []) :
    0 < ((t ++ t).dedup.map fun w => t.count w * t.count w).sum := by
  obtain ⟨w, hw⟩ := List.exists_mem_of_ne_nil t h
  have hmem : w ∈ (t ++ t).dedup := List.mem_dedup.mpr (List.mem_append_left t hw)
  have hcount : 0 < t.count w := List.count_pos_iff.mpr hw
  have hterm : t.count w * t.count w ∈
      (t ++ t).dedup.map fun w => t.count w * t.count w :=
    List.mem_map_of_mem _ hmem
  have hle := List.single_le_sum (fun x _ => Nat.zero_le x) _ hterm
  nlinarith

theorem sim_self_eq_one (a : String) (h : tokenize a ≠ []) :
    calculateCosineSimilarity a a = 1 := by
  have hpos := self_parts_pos (tokenize a) h
  simp only [calculateCosineSimilarity, cosineParts_self]
  set S : ℕ := ((tokenize a ++ tokenize a).dedup.map
    fun w => (tokenize a).count w * (tokenize a).count w).sum with hS
  have hSR : (0 : ℝ) < (S : ℝ) := by exact_mod_cast hpos
  have hsq : Real.sqrt (S : ℝ) ≠ 0 := ne_of_gt (Real.sqrt_pos.mpr hSR)
  rw [if_neg (by push_neg; exact ⟨hsq, hsq⟩)]
  rw [Real.mul_self_sqrt (le_of_lt hSR)]
  exact div_self (ne_of_gt hSR)

theorem cosineParts_swap (t1 t2 : List String) :
    (cosineParts t1 t2).1 = (cosineParts t2 t1).1 ∧
    (cosineParts t1 t2).2.1 = (cosineParts t2 t1).2.2 ∧
    (cosineParts t1 t2).2.2 = (cosineParts t2 t1).2.1 := by
  have hperm : (t1 ++ t2).dedup.Perm (t2 ++ t1).dedup :=
    List.Perm.dedup List.perm_append_comm
  refine ⟨?_, ?_, ?_⟩
  · have h1 : ((t1 ++ t2).dedup.map fun w => t1.count w * t2.count w)
        = ((t1 ++ t2).dedup.map fun w => t2.count w * t1.count w) := by
      apply List.map_congr_left
      intro w _
      exact Nat.mul_comm _ _
    show ((t1 ++ t2).dedup.map fun w => t1.count w * t2.count w).sum
      = ((t2 ++ t1).dedup.map fun w => t2.count w * t1.count w).sum
    rw [h1]
    exact (hperm.map _).sum_eq
  · exact (hperm.map _).sum_eq
  · exact (hperm.map _).sum_eq

theorem sim_symm (a b : String) :
    calculateCosineSimilarity a b = calculateCosineSimilarity b a := by
  obtain ⟨hd, h1, h2⟩ := cosineParts_swap (tokenize a) (tokenize b)
  simp only [calculateCosineSimilarity]
  rw [hd, h1, h2]
  by_cases hc : Real.sqrt ((cosineParts (tokenize b) (tokenize a)).2.1 : ℝ) = 0 ∨
      Real.sqrt ((cosineParts (tokenize b) (tokenize a)).2.2 : ℝ) = 0
  · rw [if_pos hc.symm, if_pos hc]
  · rw [if_neg (fun hcc => hc hcc.symm), if_neg hc]
    rw [mul_comm]

theorem tokenize_eq_nil (a : String) (h : ∀ w ∈ rawTokens a, w.length < 3) :
    tokenize a = [] := by
  unfold tokenize
  rw [List.filter_eq_nil_iff]
  intro w hw
  have := h w hw
  simp only [decide_eq_true_eq]
  omega

theorem handlerLoop_spec (qt : String) (qid : Option String)
    (corpus : List CorpusQ) (thr : ℝ) :
    handlerLoop qt qid corpus thr =
      ((corpus.filter fun q =>
          decide (thr ≤ calculateCosineSimilarity qt q.question_text)).map
        fun q => ⟨q.id, calculateCosineSimilarity qt q.question_text⟩,
       match qid with
       | some i => (corpus.filter fun q =>
            decide (thr ≤ calculateCosineSimilarity qt q.question_text)).map
          fun q => ⟨i, q.id, calculateCosineSimilarity qt q.question_text⟩
       | none => []) := by
  unfold handlerLoop
  suffices h : ∀ (cs : List CorpusQ) (acc : List SimEntry × List UpsertRow),
      cs.foldl
        (fun acc q =>
          let similarity := calculateCosineSimilarity qt q.question_text
          if thr ≤ similarity then
            (acc.1 ++ [⟨q.id, similarity⟩],
             acc.2 ++ (match qid with
               | some i => [⟨i, q.id, similarity⟩]
               | none => []))
          else acc)
        acc =
      (acc.1 ++ (cs.filter fun q =>
          decide (thr ≤ calculateCosineSimilarity qt q.question_text)).map
        (fun q => ⟨q.id, calculateCosineSimilarity qt q.question_text⟩),
       acc.2 ++ (match qid with
       | some i => (cs.filter fun q =>
            decide (thr ≤ calculateCosineSimilarity qt q.question_text)).map
          fun q => ⟨i, q.id, calculateCosineSimilarity qt q.question_text⟩
       | none => [])) by
    rw [h corpus ([], [])]
    simp
  intro cs
  induction cs with
  | nil =>
    intro acc
    cases qid <;> simp
  | cons q qs ih =>
    intro acc
    rw [List.foldl_cons, ih]
    by_cases hq : thr ≤ calculateCosineSimilarity qt q.question_text
    · cases qid <;>
        simp [hq, List.filter_cons, List.append_assoc]
    · cases qid <;>
        simp [hq, List.filter_cons]

theorem simDescBool_trans : ∀ x y z : SimEntry,
    simDescBool x y = true → simDescBool y z = true → simDescBool x z = true := by
  intro x y z hxy hyz
  simp only [simDescBool, decide_eq_true_eq] at *
  exact le_trans hyz hxy

theorem simDescBool_total : ∀ x y : SimEntry,
    (simDescBool x y || simDescBool y x) = true := by
  intro x y
  simp only [simDescBool, Bool.or_eq_true, decide_eq_true_eq]
  exact le_total y.similarity x.similarity

theorem findSimilar_sorted (qt : String) (corpus : List CorpusQ) (thr : ℝ) :
    List.Pairwise (fun x y : SimEntry => y.similarity ≤ x.similarity)
      (findSimilar qt corpus thr) := by
  unfold findSimilar
  apply List.Pairwise.sublist (List.take_sublist _ _)
  have h := List.sorted_mergeSort simDescBool_trans simDescBool_total
    ((corpus.filter fun q =>
        decide (thr ≤ calculateCosineSimilarity qt q.question_text)).map
      fun q => ⟨q.id, calculateCosineSimilarity qt q.question_text⟩)
  apply h.imp
  intro x y hxy
  simpa [simDescBool] using hxy

theorem findSimilar_length (qt : String) (corpus : List CorpusQ) (thr : ℝ) :
    (findSimilar qt corpus thr).length ≤ 10 := by
  unfold findSimilar
  rw [List.length_take]
  exact min_le_left _ _

theorem handler_fst_eq_findSimilar (qt : String) (qid : Option String)
    (corpus : List CorpusQ) (thr : ℝ) :
    (semanticSimilarityHandler qt qid corpus thr).1 = findSimilar qt corpus thr := by
  unfold semanticSimilarityHandler findSimilar
  rw [handlerLoop_spec]

theorem handler_no_effects (qt : String) (corpus : List CorpusQ) (thr : ℝ) :
    (semanticSimilarityHandler qt none corpus thr).2 = [] := by
  unfold semanticSimilarityHandler
  rw [handlerLoop_spec]


/-! ### Helper facts for the concrete scenarios -/

/-- `guessBloomAndKD` on the C4 scenario text. -/
theorem guessBloomAndKD_define_mcq :
    guessBloomAndKD "Define the term requirements engineering." QType.mcq
      = ⟨.remembering, .factual, 7 / 10⟩ := by
  have hb : bloomScan (jsToLower "Define the term requirements engineering.")
      = some ("define", .remembering) := by decide
  have hk : kdScan (jsToLower "Define the term requirements engineering.")
      = some ("define", .factual) := by decide
  have hw : (jsSplitWs (jsToLower "Define the term requirements engineering.")).length
      = 5 := by decide
  have hwh : jsIncludes (jsToLower "Define the term requirements engineering.")
      "which of the following" = false := by decide
  simp only [guessBloomAndKD, hb, hk, hw, hwh, kdDetect, essayRemap]
  norm_num [min_def, max_def, show QType.mcq ≠ QType.essay from by decide,
    show BloomLevel.remembering ≠ BloomLevel.creating from by decide]

/-! ## The claims -/

/-- C1 (counterexample): on the empty requirement matrix — which has
`totalRequired = 0` — the code returns `overallScore = 0` and
`overallStatus = fail`, not the claimed `overallScore = 100` and
`overallStatus = pass`. -/
theorem C1_counterexample :
    (analyze [] ⟨some []⟩).totalRequired = 0 ∧
    (analyze [] ⟨some []⟩).overallScore = 0 ∧
    (analyze [] ⟨some []⟩).overallScore ≠ 100 ∧
    (analyze [] ⟨some []⟩).overallStatus = SuffStatus.fail ∧
    (analyze [] ⟨some []⟩).overallStatus ≠ SuffStatus.pass := by
  have ht : (analyze [] ⟨some []⟩).totalRequired = 0 := by decide
  have hscore : (analyze [] ⟨some []⟩).overallScore = 0 := by
    rw [analyze_overallScore, ht]
    norm_num
  have hstat : (analyze [] ⟨some []⟩).overallStatus = SuffStatus.fail := by
    rw [analyze_overallStatus, hscore]
    norm_num
  refine ⟨ht, hscore, by rw [hscore]; norm_num, hstat, by rw [hstat]; decide⟩

/-- C1 (amended): for every requirement matrix with `totalRequired = 0` (in
particular the empty matrix), `analyze` returns `overallScore = 0`,
`overallStatus = fail`, and an empty results list. -/
theorem C1_amended (raw : List RawQuestion) (m : TosMatrix)
    (h : (analyze raw m).totalRequired = 0) :
    (analyze raw m).overallScore = 0 ∧
    (analyze raw m).overallStatus = SuffStatus.fail ∧
    (analyze raw m).results = [] := by
  have hscore : (analyze raw m).overallScore = 0 := by
    rw [analyze_overallScore, h]
    norm_num
  have hres : (analyze raw m).results = [] := by
    by_contra hne
    obtain ⟨r, hr_mem⟩ := List.exists_mem_of_ne_nil _ hne
    have hinv := analyzeCore_inv
      ((raw.filter fun q => !q.deleted).map fun q =>
        ⟨q.id, normalize q.topic, normalize q.bloom_level⟩) m
    have hsum : ((analyze raw m).results.map SufficiencyResult.required).sum = 0 := by
      have := hinv.1
      rw [show (analyzeCore ((raw.filter fun q => !q.deleted).map fun q =>
        ⟨q.id, normalize q.topic, normalize q.bloom_level⟩) m).totalRequired
          = (analyze raw m).totalRequired from rfl, h] at this
      exact this
    have h0 : r.required = 0 :=
      (List.sum_eq_zero_iff.mp hsum) r.required (List.mem_map_of_mem _ hr_mem)
    exact analyze_required_ne_zero raw m r hr_mem h0
  refine ⟨hscore, ?_, hres⟩
  rw [analyze_overallStatus, hscore]
  norm_num

/-- C1 amended claim, witnessed on the empty requirement matrix. -/
theorem C1_amended_witness :
    (analyze [] ⟨some []⟩).totalRequired = 0 ∧
    ((analyze [] ⟨some []⟩).overallScore = 0 ∧
     (analyze [] ⟨some []⟩).overallStatus = SuffStatus.fail ∧
     (analyze [] ⟨some []⟩).results = []) :=
  ⟨by decide, C1_amended [] ⟨some []⟩ (by decide)⟩

/-- C2 (counterexample): a structurally invalid matrix — its `topics` array
missing — does not make `analyzeTOSSufficiency` raise an error: with a
successful fetch the analysis still returns a result. -/
theorem C2_counterexample :
    (analyzeTOSSufficiency (Except.ok []) ⟨none⟩).isOk = true := by decide

/-- C2 (amended): `analyzeTOSSufficiency` raises an error exactly when the
question fetch itself failed, regardless of the matrix; a missing `topics`
array is treated as the empty topics list. -/
theorem C2_amended (fetched : Except String (List RawQuestion)) (m : TosMatrix) :
    (analyzeTOSSufficiency fetched m).isOk = fetched.isOk ∧
    analyzeTOSSufficiency fetched ⟨none⟩ = analyzeTOSSufficiency fetched ⟨some []⟩ := by
  cases fetched <;> exact ⟨rfl, rfl⟩

/-- C3: the response list of the semantic-similarity handler is a pure
function of the query text, the fetched corpus and the threshold — equal to
`findSimilar` whatever `questionId` (and hence whatever storage interleaving)
is supplied — and it is sorted by descending similarity and holds at most 10
entries; with no `questionId` the handler performs no storage upsert at all. -/
theorem C3_findSimilar_pure_sorted_top10 (qt : String) (qid : Option String)
    (corpus : List CorpusQ) (thr : ℝ) :
    (semanticSimilarityHandler qt qid corpus thr).1 = findSimilar qt corpus thr ∧
    List.Pairwise (fun x y : SimEntry => y.similarity ≤ x.similarity)
      (semanticSimilarityHandler qt qid corpus thr).1 ∧
    (semanticSimilarityHandler qt qid corpus thr).1.length ≤ 10 ∧
    (semanticSimilarityHandler qt none corpus thr).2 = [] := by
  refine ⟨handler_fst_eq_findSimilar qt qid corpus thr, ?_, ?_,
    handler_no_effects qt corpus thr⟩
  · rw [handler_fst_eq_findSimilar]
    exact findSimilar_sorted qt corpus thr
  · rw [handler_fst_eq_findSimilar]
    exact findSimilar_length qt corpus thr

/-- C4: classifying `"Define the term requirements engineering."` as an MCQ
yields cognitive level `remembering`, knowledge dimension `factual`, and a
reported confidence of at least 0.7. -/
theorem C4_define_mcq_classification :
    (classifyOne "Define the term requirements engineering." QType.mcq).cognitive_level
        = BloomLevel.remembering ∧
    (classifyOne "Define the term requirements engineering." QType.mcq).knowledge_dimension
        = KnowledgeDim.factual ∧
    (7 / 10 : ℚ) ≤
      (classifyOne "Define the term requirements engineering." QType.mcq).confidence := by
  have hr : jsRound (7 / 10 * 100) = 70 := by
    unfold jsRound
    rw [Int.floor_eq_iff]
    norm_num
  refine ⟨?_, ?_, ?_⟩
  · simp only [classifyOne, guessBloomAndKD_define_mcq]
  · simp only [classifyOne, guessBloomAndKD_define_mcq]
  · simp only [classifyOne, guessBloomAndKD_define_mcq, hr]
    norm_num

/-- C5: for the requirement matrix `[{topic: "Algebra", remembering_items: 5}]`
and an inventory of exactly three non-deleted `"algebra basics"` items at
level `"remembering"`, the analysis reports the single cell with
`available = 3`, `gap = 2` and status `fail` (3 < 0.7 × 5 = 3.5). -/
theorem C5_algebra_boundary_fail :
    (analyze
      [⟨1, "algebra basics", "remembering", false⟩,
       ⟨2, "algebra basics", "remembering", false⟩,
       ⟨3, "algebra basics", "remembering", false⟩]
      ⟨some [⟨none, some "Algebra", 5, 0, 0, 0, 0, 0⟩]⟩).results =
      [⟨"algebra", "remembering", 5, 3, 2, SuffStatus.fail⟩] := by
  decide

/-- C6: for every requirement matrix and inventory, the sums of the
`required` and `available` fields over the result rows equal the
`totalRequired` and `totalAvailable` totals used for the overall score. -/
theorem C6_row_sums_match_totals (raw : List RawQuestion) (m : TosMatrix) :
    ((analyze raw m).results.map SufficiencyResult.required).sum
        = (analyze raw m).totalRequired ∧
    ((analyze raw m).results.map SufficiencyResult.available).sum
        = (analyze raw m).totalAvailable := by
  have h := analyzeCore_inv
    ((raw.filter fun q => !q.deleted).map fun q =>
      ⟨q.id, normalize q.topic, normalize q.bloom_level⟩) m
  exact ⟨h.1, h.2.1⟩

/-- C7: `similarity(a, a) = 1` for every text with at least one token of
length ≥ 3, and `similarity` is symmetric in its two arguments. -/
theorem C7_similarity_reflexive_symmetric (a b : String) :
    ((∃ w ∈ rawTokens a, 3 ≤ w.length) → calculateCosineSimilarity a a = 1) ∧
    calculateCosineSimilarity a b = calculateCosineSimilarity b a := by
  refine ⟨?_, sim_symm a b⟩
  intro ⟨w, hw_mem, hw_len⟩
  apply sim_self_eq_one
  have hmem : w ∈ tokenize a := by
    unfold tokenize
    rw [List.mem_filter]
    exact ⟨hw_mem, by simp only [decide_eq_true_eq]; omega⟩
  exact List.ne_nil_of_mem hmem

/-- C7, witnessed at `"hello world"` and `"abc def"`. -/
theorem C7_witness :
    (∃ w ∈ rawTokens "hello world", 3 ≤ w.length) ∧
    (calculateCosineSimilarity "hello world" "hello world" = 1 ∧
     calculateCosineSimilarity "hello world" "abc def"
        = calculateCosineSimilarity "abc def" "hello world") :=
  ⟨by decide,
   (C7_similarity_reflexive_symmetric "hello world" "abc def").1 (by decide),
   (C7_similarity_reflexive_symmetric "hello world" "abc def").2⟩

/-- C8: an essay-type input is never classified with knowledge dimension
`factual`: the detection result is remapped to `conceptual` in that case. -/
theorem C8_essay_never_factual (text : String) :
    (classifyOne text QType.essay).knowledge_dimension ≠ KnowledgeDim.factual := by
  have h : (classifyOne text QType.essay).knowledge_dimension
      = essayRemap QType.essay (kdDetect (jsToLower text)
          (if (bloomScan (jsToLower text)).isSome then 1 else 0)) := rfl
  rw [h]
  exact essayRemap_ne_factual _

/-- C9: the semantic fingerprint produced by the classifier always has length
50, and its L2 norm is exactly 1 unless the raw term-frequency vector is
all-zero, in which case the vector is returned unchanged (the all-zero case
in fact never arises). -/
theorem C9_fingerprint_unit_length (text : String) (type : QType) :
    ((classifyOne text type).semantic_vector).length = 50 ∧
    (((classifyOne text type).semantic_vector.map fun x : ℝ => x * x).sum = 1 ∨
      ((∀ j ∈ rawVector text, j = 0) ∧
        (classifyOne text type).semantic_vector
          = (rawVector text).map fun v : Nat => (v : ℝ))) := by
  have hsv : (classifyOne text type).semantic_vector = generateSemanticVector text := rfl
  obtain ⟨j, hj_mem, hj_ne⟩ := rawVector_ne_zero text
  have hS_nat : 0 < ((rawVector text).map fun v => v * v).sum := by
    have hmem : j * j ∈ (rawVector text).map fun v => v * v :=
      List.mem_map_of_mem _ hj_mem
    have hle : j * j ≤ ((rawVector text).map fun v => v * v).sum :=
      List.single_le_sum (fun x _ => Nat.zero_le x) _ hmem
    have hpos : 0 < j * j := Nat.pos_of_ne_zero (Nat.mul_ne_zero hj_ne hj_ne)
    omega
  have hS_pos : (0 : ℝ) < ((rawVector text).map fun v : Nat => (v : ℝ) * v).sum := by
    rw [sum_sq_cast]
    exact_mod_cast hS_nat
  have hm_pos : 0 < Real.sqrt (((rawVector text).map fun v : Nat => (v : ℝ) * v).sum) :=
    Real.sqrt_pos.mpr hS_pos
  have hgen : generateSemanticVector text
      = (rawVector text).map fun v : Nat =>
          (v : ℝ) / Real.sqrt (((rawVector text).map fun v : Nat => (v : ℝ) * v).sum) := by
    simp only [generateSemanticVector]
    rw [if_pos hm_pos]
  constructor
  · rw [hsv, hgen, List.length_map, rawVector_length]
  · left
    rw [hsv, hgen, sum_div_sq, Real.mul_self_sqrt (le_of_lt hS_pos)]
    exact div_self (ne_of_gt hS_pos)

/-- C10: whenever every word of both texts is shorter than 3 characters, all
tokens are filtered out and the similarity is 0 — even for two identical
non-empty texts. -/
theorem C10_short_tokens_zero (a b : String)
    (ha : ∀ w ∈ rawTokens a, w.length < 3)
    (hb : ∀ w ∈ rawTokens b, w.length < 3) :
    calculateCosineSimilarity a b = 0 := by
  simp only [calculateCosineSimilarity, tokenize_eq_nil a ha, tokenize_eq_nil b hb]
  rw [if_pos]
  left
  show Real.sqrt ((cosineParts [] []).2.1 : ℝ) = 0
  norm_num [cosineParts]

/-- C10, witnessed on the identical non-empty pair `"ab cd"`, `"ab cd"`. -/
theorem C10_witness :
    (∀ w ∈ rawTokens "ab cd", w.length < 3) ∧
    calculateCosineSimilarity "ab cd" "ab cd" = 0 :=
  ⟨by decide, C10_short_tokens_zero "ab cd" "ab cd" (by decide) (by decide)⟩

end BloomsBuilder
